import Mathlib

/-!
Verification of the core numeric routines of the ICESat-2 land-ice notebook
(`notebooks/land_ice_applications.ipynb`): the ATL06 segment reader
(`atl06_to_dict`), the segment-consistency scorer (`min_seg_difference`) and
the cross-track slope correction (`atc_corr`).

Floating-point array values are modelled as `Option ℚ`, with `none` playing
the role of numpy's NaN; every arithmetic primitive of the code propagates
NaN, exactly as numpy's `+`, `-`, `*`, `np.abs` and `np.minimum` do.
-/

/-- A numpy floating-point value: `none` models NaN, `some q` a finite value. -/
abbrev Val := Option ℚ

/-- numpy elementwise addition: NaN propagates. -/
def oadd : Val → Val → Val
  | some a, some b => some (a + b)
  | _, _ => none

/-- numpy elementwise subtraction: NaN propagates. -/
def osub : Val → Val → Val
  | some a, some b => some (a - b)
  | _, _ => none

/-- numpy elementwise multiplication: NaN propagates. -/
def omul : Val → Val → Val
  | some a, some b => some (a * b)
  | _, _ => none

/-- numpy `np.abs`: NaN propagates. -/
def oabs : Val → Val
  | some a => some (if 0 ≤ a then a else -a)
  | none => none

/-- numpy `np.minimum`: the pointwise smaller value, NaN in either argument
propagating to the result. -/
def omin : Val → Val → Val
  | some a, some b => some (if a ≤ b then a else b)
  | _, _ => none

/--
`min_seg_difference(D6)` from the notebook, expressed per output index.
The source builds

  `h_ep[0, :] = h_li - dh_fit_dx*20`,
  `h_ep[1, :] = h_li + dh_fit_dx*20`,
  `delta_h_seg = np.zeros_like(h_li)`,
  `delta_h_seg[1:]  = np.abs(h_li[1:]  - h_ep[1, :-1])`,
  `delta_h_seg[:-1] = np.minimum(delta_h_seg[:-1], np.abs(h_li[:-1] - h_ep[0, 1:]))`.

Hence entry `i` of the returned array (for `i < n`, `n` the array size) is:
the first slice assignment touches `i` iff `1 ≤ i`, storing
`|h i - (h (i-1) + dx (i-1)*20)|`, positions not touched keeping the
initialisation value `0`; the second assignment touches `i` iff `i + 1 < n`,
replacing the current entry by its `np.minimum` with
`|h i - (h (i+1) - dx (i+1)*20)|`.
-/
def min_seg_difference (h dx : ℕ → Val) (n i : ℕ) : Val :=
  if i + 1 < n then
    omin
      (if 1 ≤ i then
        oabs (osub (h i) (oadd (h (i - 1)) (omul (dx (i - 1)) (some 20))))
      else some 0)
      (oabs (osub (h i) (osub (h (i + 1)) (omul (dx (i + 1)) (some 20)))))
  else
    if 1 ≤ i then
      oabs (osub (h i) (oadd (h (i - 1)) (omul (dx (i - 1)) (some 20))))
    else some 0

/-- The dictionary handed to `min_seg_difference`: per the docstring it must
have entries `x_atc`, `h_li`, `dh_fit_dx` (parallel arrays). -/
structure Granule where
  x_atc : List Val
  h_li : List Val
  dh_fit_dx : List Val
deriving DecidableEq

/-- Elevation column of a granule as an indexed function. -/
def gH (g : Granule) : ℕ → Val := fun i => g.h_li.getD i none

/-- Along-track-slope column of a granule as an indexed function. -/
def gDX (g : Granule) : ℕ → Val := fun i => g.dh_fit_dx.getD i none

/-- `min_seg_difference` applied to a granule dictionary: the array size `n`
is `D6['h_li'].size`. -/
def min_seg_difference_tab (g : Granule) (i : ℕ) : Val :=
  min_seg_difference (gH g) (gDX g) g.h_li.length i

/-- The consistency score as the specification words it: the minimum of the
absolute difference between the segment's own elevation extrapolated backward
by half the nominal spacing (half of ≈20 units, so 10) and the predecessor's
elevation, and likewise forward against the successor's elevation.  Written
to be compared against what the source computes. -/
def spec_min_seg_difference (h dx : ℕ → Val) (i : ℕ) : Val :=
  omin
    (oabs (osub (osub (h i) (omul (dx i) (some 10))) (h (i - 1))))
    (oabs (osub (oadd (h i) (omul (dx i) (some 10))) (h (i + 1))))

/-- Cross-track correction term from the notebook:
`atc_corr = Dl['y_atc'] * Dl['dh_fit_dy']`. -/
def atc_corr (y dy : ℕ → Val) (i : ℕ) : Val := omul (y i) (dy i)

/-- Corrected elevation as plotted by the notebook:
`Dl['h_li'] - atc_corr`. -/
def h_li_corr (h y dy : ℕ → Val) (i : ℕ) : Val := osub (h i) (atc_corr y dy i)

/-!
## The ATL06 segment reader `atl06_to_dict`

The HDF5 file is modelled as a flat association list from full dataset paths
to datasets; a dataset carries its raw values, its element dtype and the
optional `_FillValue` attribute.  The two Python exception classes that the
reader can raise — `KeyError` (absent dataset, raised by `h5f[ds_name]`) and
`TypeError` (`temp['rgt']` on `temp = None` when the filename regex finds no
match) — become the two constructors of `PyError`.
-/

/-- Element dtype of a dataset / column. -/
inductive Dty
  | intTy
  | floatTy
deriving DecidableEq

/-- A raw HDF5 dataset: dtype, values, optional `_FillValue` attribute. -/
structure Dataset where
  dty : Dty
  vals : List ℚ
  fillValue : Option ℚ
deriving DecidableEq

/-- A column of the output dictionary: dtype and values, where `none`
models NaN. -/
structure Column where
  dty : Dty
  vals : List Val
deriving DecidableEq

/-- A source file: its name and its datasets keyed by full path. -/
structure H5File where
  filename : String
  datasets : List (String × Dataset)
deriving DecidableEq

/-- The Python exceptions the reader can raise. -/
inductive PyError
  | keyError (name : String)
  | typeError
deriving DecidableEq

/-- `h5f[ds_name][index]` with an integer-array index, `None` meaning the
whole dataset. -/
def applyIndex (index : Option (List ℕ)) (vals : List ℚ) : List ℚ :=
  match index with
  | none => vals
  | some idxs => idxs.filterMap (fun j => vals.get? j)

/-- The fill-value handling of the reader: only when the dataset has a
`_FillValue` attribute are the matching entries marked bad, the array cast
to float, and the bad entries set to NaN. -/
def processDataset (d : Dataset) : Column :=
  match d.fillValue with
  | some fv => ⟨Dty.floatTy, d.vals.map (fun v => if v = fv then none else some v)⟩
  | none => ⟨d.dty, d.vals.map some⟩

/-- Reading one dataset: index it, then handle the fill value. -/
def readDataset (index : Option (List ℕ)) (d : Dataset) : Column :=
  processDataset ⟨d.dty, applyIndex index d.vals, d.fillValue⟩

/-- The dataset path built by the reader:
`beam + '/land_ice_segments/' + key + '/' + ds` for a named group and
`beam + '/land_ice_segments/' + ds` for the `None` group. -/
def ds_name (beam : String) (key : Option String) (ds : String) : String :=
  match key with
  | some k => beam ++ "/land_ice_segments/" ++ k ++ "/" ++ ds
  | none => beam ++ "/land_ice_segments/" ++ ds

/-- The inner loop over the datasets of one group: the first absent dataset
raises `KeyError` with its full path. -/
def readGroup (f : H5File) (beam : String) (key : Option String)
    (dss : List String) (index : Option (List ℕ)) :
    Except PyError (List (String × Column)) :=
  match dss with
  | [] => .ok []
  | ds :: rest =>
    match f.datasets.lookup (ds_name beam key ds) with
    | none => .error (.keyError (ds_name beam key ds))
    | some d =>
      match readGroup f beam key rest index with
      | .error e => .error e
      | .ok cols => .ok ((ds, readDataset index d) :: cols)

/-- The outer loop over the groups of the field dictionary. -/
def readFields (f : H5File) (beam : String)
    (fd : List (Option String × List String)) (index : Option (List ℕ)) :
    Except PyError (List (String × Column)) :=
  match fd with
  | [] => .ok []
  | (key, dss) :: rest =>
    match readGroup f beam key dss index with
    | .error e => .error e
    | .ok cols =>
      match readFields f beam rest index with
      | .error e => .error e
      | .ok cols2 => .ok (cols ++ cols2)

/-- Python-dict access on the accumulated columns: the entry stored last
wins, exactly as repeated dict assignment overwrites. -/
def dget {α : Type} (l : List (String × α)) (k : String) : Option α :=
  match l with
  | [] => none
  | p :: rest =>
    match dget rest k with
    | some v => some v
    | none => if p.1 = k then some p.2 else none

/-- Elementwise planar projection of a (longitude, latitude) pair;
NaN inputs give NaN outputs. -/
def vproj (pr : ℚ → ℚ → ℚ × ℚ) (a b : Val) : Val × Val :=
  match a, b with
  | some x, some y => (some (pr x y).1, some (pr x y).2)
  | _, _ => (none, none)

/-- The `epsg` block of the reader: when a projection code is supplied, the
`longitude` and `latitude` columns are looked up in the dictionary (a missing
one raises `KeyError`, as `D['longitude']` would) and the projected `x` and
`y` columns are appended. -/
def addXY (pr : ℚ → ℚ → ℚ × ℚ) (epsg : Option ℕ)
    (cols : List (String × Column)) : Except PyError (List (String × Column)) :=
  match epsg with
  | none => .ok cols
  | some _ =>
    match dget cols "longitude" with
    | none => .error (.keyError "longitude")
    | some lon =>
      match dget cols "latitude" with
      | none => .error (.keyError "latitude")
      | some lat =>
        .ok (cols ++
          [("x", ⟨Dty.floatTy,
            List.zipWith (fun a b => (vproj pr a b).1) lon.vals lat.vals⟩),
           ("y", ⟨Dty.floatTy,
            List.zipWith (fun a b => (vproj pr a b).2) lon.vals lat.vals⟩)])

/-- Read `k` decimal digits, most significant first, returning their value
and the remaining characters; fails if a non-digit intervenes. -/
def grabDigits : ℕ → ℕ → List Char → Option (ℕ × List Char)
  | 0, acc, cs => some (acc, cs)
  | k + 1, acc, cs =>
    match cs with
    | [] => none
    | c :: rest =>
      if c.isDigit then grabDigits k (acc * 10 + (c.toNat - '0'.toNat)) rest
      else none

/-- Attempt to match the tail of the pattern
`ATL06_(?...date \d+)_(rgt \d\d\d\d)(cycle \d\d)(region \d\d)_(\d\d\d)_(\d\d).h5`
right after the literal `ATL06_`; `\d+` must run up to the first non-digit,
which the pattern then requires to be `_`; the `.` of `.h5` matches any
character except a newline.  Returns the `rgt` and `cycle` captures. -/
def matchTail (cs : List Char) : Option (ℕ × ℕ) :=
  match cs.span Char.isDigit with
  | (ds, rest) =>
    if ds.isEmpty then none
    else
      match rest with
      | '_' :: r2 =>
        match grabDigits 4 0 r2 with
        | none => none
        | some (rgt, r3) =>
          match grabDigits 2 0 r3 with
          | none => none
          | some (cyc, r4) =>
            match grabDigits 2 0 r4 with
            | none => none
            | some (_, r5) =>
              match r5 with
              | '_' :: r6 =>
                match grabDigits 3 0 r6 with
                | none => none
                | some (_, r7) =>
                  match r7 with
                  | '_' :: r8 =>
                    match grabDigits 2 0 r8 with
                    | none => none
                    | some (_, r9) =>
                      match r9 with
                      | c :: 'h' :: '5' :: _ =>
                        if c = '\n' then none else some (rgt, cyc)
                      | _ => none
                  | _ => none
              | _ => none
      | _ => none

/-- Attempt to match the whole pattern at the head of the character list. -/
def matchAt (cs : List Char) : Option (ℕ × ℕ) :=
  match cs with
  | 'A' :: 'T' :: 'L' :: '0' :: '6' :: '_' :: rest => matchTail rest
  | _ => none

/-- `re.search`: try every start position, leftmost match first. -/
def searchAux : List Char → Option (ℕ × ℕ)
  | [] => none
  | c :: rest =>
    match matchAt (c :: rest) with
    | some r => some r
    | none => searchAux rest

/-- `file_re.search(filename)` followed by `int(temp['rgt'])`,
`int(temp['cycle'])`: `none` models a failed search (`temp = None`). -/
def file_re_search (s : String) : Option (ℕ × ℕ) :=
  searchAux s.toList

/-- The output dictionary: the data columns plus the provenance entries
`rgt`, `cycle`, `beam`. -/
structure Table where
  cols : List (String × Column)
  rgt : ℕ
  cycle : ℕ
  beam : String
deriving DecidableEq

/-- The default field dictionary of the reader. -/
def default_field_dict : List (Option String × List String) :=
  [(none, ["latitude", "longitude", "h_li", "atl06_quality_summary"]),
   (some "ground_track", ["x_atc", "y_atc"]),
   (some "fit_statistics", ["dh_fit_dx", "dh_fit_dy"])]

/-- `atl06_to_dict(filename, beam, field_dict, index, epsg)`: read all
requested datasets (first absent one raises `KeyError`), optionally project
and append `x`/`y`, then parse the provenance identifier from the filename
(`TypeError` when the regex finds no match, since `temp` is `None`). -/
def atl06_to_dict (pr : ℚ → ℚ → ℚ × ℚ) (f : H5File) (beam : String)
    (field_dict : Option (List (Option String × List String)))
    (index : Option (List ℕ)) (epsg : Option ℕ) : Except PyError Table :=
  match readFields f beam (field_dict.getD default_field_dict) index with
  | .error e => .error e
  | .ok cols =>
    match addXY pr epsg cols with
    | .error e => .error e
    | .ok cols2 =>
      match file_re_search f.filename with
      | none => .error .typeError
      | some rc => .ok ⟨cols2, rc.1, rc.2, beam⟩

/-- The notebook's batch loop building `D_dict`: `KeyError` is caught and
the file skipped; any other exception propagates and aborts the loop. -/
def D_dict (pr : ℚ → ℚ → ℚ × ℚ) (beam : String)
    (field_dict : Option (List (Option String × List String)))
    (index : Option (List ℕ)) (epsg : Option ℕ) :
    List H5File → Except PyError (List (H5File × Table))
  | [] => .ok []
  | f :: rest =>
    match atl06_to_dict pr f beam field_dict index epsg with
    | .ok t =>
      match D_dict pr beam field_dict index epsg rest with
      | .error e => .error e
      | .ok l => .ok ((f, t) :: l)
    | .error (.keyError _) => D_dict pr beam field_dict index epsg rest
    | .error .typeError => .error .typeError

/-- The notebook's repeat-track batch loops building `D_2l` and `D_2r`:
for each matching file both the left and the right beam of the center pair
are read inside one `try`, and `except Exception as e` prints the failure
and moves on to the next file.  When the `gt2l` read succeeds and the
`gt2r` read fails, the `D_2l` entry survives — the dict assignment happened
before the exception. -/
def D_2lr (pr : ℚ → ℚ → ℚ × ℚ)
    (field_dict : Option (List (Option String × List String)))
    (index : Option (List ℕ)) (epsg : Option ℕ) :
    List H5File → List (H5File × Table) × List (H5File × Table)
  | [] => ([], [])
  | f :: rest =>
    match atl06_to_dict pr f "/gt2l" field_dict index epsg with
    | .error _ => D_2lr pr field_dict index epsg rest
    | .ok tl =>
      match atl06_to_dict pr f "/gt2r" field_dict index epsg with
      | .error _ =>
        ((f, tl) :: (D_2lr pr field_dict index epsg rest).1,
          (D_2lr pr field_dict index epsg rest).2)
      | .ok tr =>
        ((f, tl) :: (D_2lr pr field_dict index epsg rest).1,
          (f, tr) :: (D_2lr pr field_dict index epsg rest).2)

/-- Whether a reader call raised `KeyError` — the exception class the
notebook's batch loop catches. -/
def isKeyError : Except PyError Table → Bool
  | .error (.keyError _) => true
  | _ => false

/-- A trivial planar projection standing in for `pyproj.proj.Proj(epsg)`. -/
def proj0 : ℚ → ℚ → ℚ × ℚ := fun _ _ => (0, 0)

/-- `oabs` on a finite value is the absolute value. -/
theorem oabs_some (a : ℚ) : oabs (some a) = some |a| := by
  simp only [oabs]
  by_cases h : 0 ≤ a
  · rw [if_pos h, abs_of_nonneg h]
  · rw [if_neg h, abs_of_neg (lt_of_not_le h)]

/-- `omin` on finite values is the minimum. -/
theorem omin_some (a b : ℚ) : omin (some a) (some b) = some (min a b) := by
  simp only [omin]
  rw [min_def]

/-- C1, counterexample.  On the granule with `x_atc = [0, 20, 40]`,
`h_li = [0, 0, 100]`, `dh_fit_dx = [5, 0, 0]`, the middle segment's score
returned by the code is `100`, while the value demanded by the claim —
the minimum of the two differences formed with the segment's own slope —
is `0`: the code extrapolates each neighbour toward the segment using the
neighbour's slope, not the segment's own. -/
theorem C1_counterexample :
    min_seg_difference_tab
      ⟨[some 0, some 20, some 40], [some 0, some 0, some 100],
        [some 5, some 0, some 0]⟩ 1 = some 100 ∧
    spec_min_seg_difference
      (gH ⟨[some 0, some 20, some 40], [some 0, some 0, some 100],
        [some 5, some 0, some 0]⟩)
      (gDX ⟨[some 0, some 20, some 40], [some 0, some 0, some 100],
        [some 5, some 0, some 0]⟩) 1 = some 0 ∧
    min_seg_difference_tab
      ⟨[some 0, some 20, some 40], [some 0, some 0, some 100],
        [some 5, some 0, some 0]⟩ 1 ≠
    spec_min_seg_difference
      (gH ⟨[some 0, some 20, some 40], [some 0, some 0, some 100],
        [some 5, some 0, some 0]⟩)
      (gDX ⟨[some 0, some 20, some 40], [some 0, some 0, some 100],
        [some 5, some 0, some 0]⟩) 1 := by
  refine ⟨?_, ?_, ?_⟩ <;>
    norm_num [min_seg_difference_tab, min_seg_difference,
      spec_min_seg_difference, gH, gDX, oadd, osub, omul, oabs, omin]

/-- C1, amended.  For every granule and every segment `i` that has both a
predecessor and a successor, all five referenced entries being finite, the
score is `min |h i - (h (i-1) + dx (i-1)·20)| |h i - (h (i+1) - dx (i+1)·20)|`:
the minimum absolute difference between the segment's elevation and each
neighbour's elevation extrapolated toward the segment by the nominal spacing
(20 units) with the *neighbour's* slope; the score is non-negative and equals
the lesser of the two differences. -/
theorem C1_amended (g : Granule) (i : ℕ) (a b c d e : ℚ)
    (h1 : 1 ≤ i) (h2 : i + 1 < g.h_li.length)
    (ha : gH g (i - 1) = some a) (hb : gH g i = some b)
    (hc : gH g (i + 1) = some c)
    (hd : gDX g (i - 1) = some d) (he : gDX g (i + 1) = some e) :
    min_seg_difference_tab g i =
      some (min |b - (a + d * 20)| |b - (c - e * 20)|) ∧
    0 ≤ min |b - (a + d * 20)| |b - (c - e * 20)| ∧
    (min |b - (a + d * 20)| |b - (c - e * 20)| = |b - (a + d * 20)| ∨
      min |b - (a + d * 20)| |b - (c - e * 20)| = |b - (c - e * 20)|) := by
  refine ⟨?_, le_min (abs_nonneg _) (abs_nonneg _), min_choice _ _⟩
  simp [min_seg_difference_tab, min_seg_difference, h1, h2,
    ha, hb, hc, hd, he, oadd, osub, omul, oabs_some, omin_some]

/-- Witness for C1_amended at a concrete interior segment. -/
theorem C1_amended_witness :
    min_seg_difference_tab
      ⟨[some 0, some 20, some 40], [some 1, some 2, some 3],
        [some 0, some 0, some 0]⟩ 1 =
      some (min |(2 : ℚ) - (1 + 0 * 20)| |(2 : ℚ) - (3 - 0 * 20)|) ∧
    0 ≤ min |(2 : ℚ) - (1 + 0 * 20)| |(2 : ℚ) - (3 - 0 * 20)| ∧
    (min |(2 : ℚ) - (1 + 0 * 20)| |(2 : ℚ) - (3 - 0 * 20)| =
        |(2 : ℚ) - (1 + 0 * 20)| ∨
      min |(2 : ℚ) - (1 + 0 * 20)| |(2 : ℚ) - (3 - 0 * 20)| =
        |(2 : ℚ) - (3 - 0 * 20)|) :=
  C1_amended
    ⟨[some 0, some 20, some 40], [some 1, some 2, some 3],
      [some 0, some 0, some 0]⟩
    1 1 2 3 0 0 (by decide) (by decide) rfl rfl rfl rfl rfl

/-- C2: the corrected elevation is the raw elevation minus
(across-track offset × across-track slope), and at offset 0 the correction
is a no-op, for finite inputs. -/
theorem C2_atc_corr (h y dy : ℕ → Val) (i : ℕ) (a b c : ℚ)
    (hh : h i = some a) (hy : y i = some b) (hdy : dy i = some c) :
    h_li_corr h y dy i = some (a - b * c) ∧
    (b = 0 → h_li_corr h y dy i = some a) := by
  constructor
  · simp [h_li_corr, atc_corr, hh, hy, hdy, omul, osub]
  · intro hb
    simp [h_li_corr, atc_corr, hh, hy, hdy, hb, omul, osub]

/-- Witness for C2_atc_corr: offset 0, slope 3, raw elevation 200. -/
theorem C2_atc_corr_witness :
    h_li_corr (fun _ => some 200) (fun _ => some 0) (fun _ => some 3) 0 =
      some (200 - 0 * 3) ∧
    ((0 : ℚ) = 0 →
      h_li_corr (fun _ => some 200) (fun _ => some 0) (fun _ => some 3) 0 =
        some 200) :=
  C2_atc_corr (fun _ => some 200) (fun _ => some 0) (fun _ => some 3)
    0 200 0 3 rfl rfl rfl

/-- C3: on the 2-segment granule with `h_li = [10, 0]`, `dh_fit_dx = [0, 0]`,
the first segment's only neighbour comparison is
`|h 0 - (h 1 - dx 1·20)| = 10`, yet the code returns `0` for it: the
`np.zeros_like` initialisation survives into the `np.minimum`, so the missing
predecessor acts as a spurious zero constraint on the first segment. -/
theorem C3_edge_spurious_zero :
    min_seg_difference_tab
      ⟨[some 0, some 20], [some 10, some 0], [some 0, some 0]⟩ 0 = some 0 ∧
    oabs (osub (some 10) (osub (some 0) (omul (some 0) (some 20)))) =
      some 10 := by
  refine ⟨?_, ?_⟩ <;>
    norm_num [min_seg_difference_tab, min_seg_difference, gH, gDX,
      oadd, osub, omul, oabs, omin]

/-- C6, counterexample.  With `h_li = [0, 0, 0]` and
`dh_fit_dx = [0, NaN, 0]` (slope of the middle segment is NaN), the middle
segment's own score is `0`, not NaN: the score of segment `i` never reads
segment `i`'s own slope. -/
theorem C6_counterexample :
    (fun j => if j = 1 then (none : Val) else some 0) 1 = none ∧
    min_seg_difference (fun _ => some 0)
      (fun j => if j = 1 then (none : Val) else some 0) 3 1 = some 0 := by
  refine ⟨rfl, ?_⟩
  norm_num [min_seg_difference, oadd, osub, omul, oabs, omin]

/-- C6, amended.  NaN propagation as the code actually behaves: if the
elevation or the slope of segment `i` is NaN then the scores of its immediate
neighbours are NaN; if the elevation of segment `i` is NaN then segment `i`'s
own score is NaN provided it has at least one neighbour (segment `i`'s own
score does not depend on its own slope); and the cross-track-corrected
elevation of `i` is NaN as soon as its elevation, across-track offset, or
across-track slope is NaN. -/
theorem C6_amended (h dx y dy : ℕ → Val) (n i : ℕ) :
    (h i = none ∨ dx i = none → 1 ≤ i → i < n →
      min_seg_difference h dx n (i - 1) = none) ∧
    (h i = none ∨ dx i = none → i + 1 < n →
      min_seg_difference h dx n (i + 1) = none) ∧
    (h i = none → 1 ≤ i ∨ i + 1 < n →
      min_seg_difference h dx n i = none) ∧
    (h i = none ∨ y i = none ∨ dy i = none →
      h_li_corr h y dy i = none) := by
  have hterm : ∀ u : Val, h i = none ∨ dx i = none →
      osub u (osub (h i) (omul (dx i) (some 20))) = none := by
    intro u hcase
    rcases hcase with hc | hc <;>
      rcases u with _ | a <;> rcases hhi : h i with _ | b <;>
        rcases hdxi : dx i with _ | c <;>
      simp_all [osub, omul]
  have hterm2 : ∀ u : Val, h i = none ∨ dx i = none →
      osub u (oadd (h i) (omul (dx i) (some 20))) = none := by
    intro u hcase
    rcases hcase with hc | hc <;>
      rcases u with _ | a <;> rcases hhi : h i with _ | b <;>
        rcases hdxi : dx i with _ | c <;>
      simp_all [osub, oadd, omul]
  have habsmin : ∀ u : Val, omin u (oabs none) = none := by
    intro u; rcases u with _ | a <;> simp [omin, oabs]
  have habsmin2 : ∀ u : Val, omin (oabs none) u = none := by
    intro u; rcases u with _ | a <;> simp [omin, oabs]
  refine ⟨?_, ?_, ?_, ?_⟩
  · intro hcase h1i hin
    have hi1 : (i - 1) + 1 = i := Nat.succ_pred_eq_of_pos h1i
    have hlt : (i - 1) + 1 < n := by omega
    rw [min_seg_difference, if_pos hlt, hi1, hterm _ hcase, habsmin]
  · intro hcase hin
    have h1 : 1 ≤ i + 1 := Nat.le_add_left 1 i
    have hi1 : (i + 1) - 1 = i := rfl
    rw [min_seg_difference]
    by_cases hlt : (i + 1) + 1 < n
    · rw [if_pos hlt, hi1, hterm2 _ hcase, if_pos h1, habsmin2]
    · rw [if_neg hlt, if_pos h1, hi1, hterm2 _ hcase]
      simp [oabs]
  · intro hni hcase
    rw [min_seg_difference]
    by_cases hlt : i + 1 < n
    · rw [if_pos hlt]
      have : osub (h i) (osub (h (i + 1)) (omul (dx (i + 1)) (some 20))) =
          none := by
        rcases hx : osub (h (i + 1)) (omul (dx (i + 1)) (some 20)) with _ | v
        · simp [osub, hni]
        · simp [osub, hni, hx]
      rw [this, habsmin]
    · rw [if_neg hlt]
      rcases hcase with h1 | h1
      · rw [if_pos h1]
        have : osub (h i) (oadd (h (i - 1)) (omul (dx (i - 1)) (some 20))) =
            none := by
          rcases hx : oadd (h (i - 1)) (omul (dx (i - 1)) (some 20)) with _ | v
          · simp [osub, hni]
          · simp [osub, hni, hx]
        rw [this]; simp [oabs]
      · exact absurd h1 hlt
  · intro hcase
    rcases hcase with hc | hc | hc <;>
      rcases hhi : h i with _ | a <;> rcases hyi : y i with _ | b <;>
        rcases hdyi : dy i with _ | c <;>
      simp_all [h_li_corr, atc_corr, omul, osub]

/-- Witness for C6_amended: `n = 3`, `i = 1`, elevation and slope of the
middle segment both NaN. -/
theorem C6_amended_witness :
    min_seg_difference (fun j => if j = 1 then (none : Val) else some 0)
      (fun j => if j = 1 then (none : Val) else some 0) 3 0 = none ∧
    min_seg_difference (fun j => if j = 1 then (none : Val) else some 0)
      (fun j => if j = 1 then (none : Val) else some 0) 3 2 = none ∧
    min_seg_difference (fun j => if j = 1 then (none : Val) else some 0)
      (fun j => if j = 1 then (none : Val) else some 0) 3 1 = none ∧
    h_li_corr (fun j => if j = 1 then (none : Val) else some 0)
      (fun _ => some 0) (fun _ => some 0) 1 = none := by
  have H := C6_amended (fun j => if j = 1 then (none : Val) else some 0)
    (fun j => if j = 1 then (none : Val) else some 0)
    (fun _ => some 0) (fun _ => some 0) 3 1
  exact ⟨H.1 (Or.inl (by decide)) (by decide) (by decide),
    H.2.1 (Or.inl (by decide)) (by decide),
    H.2.2.1 (by decide) (Or.inl (by decide)),
    H.2.2.2 (Or.inl (by decide))⟩

/-- C8: for a 1-segment granule the code returns the defined score `0`
(`np.zeros_like` entry, untouched by both empty slice assignments) for the
single segment; the computation is total, no error is raised. -/
theorem C8_single_segment (g : Granule) (h1 : g.h_li.length = 1) :
    min_seg_difference_tab g 0 = some 0 := by
  rw [min_seg_difference_tab, h1, min_seg_difference]
  norm_num

/-- Witness for C8_single_segment, with a NaN elevation even. -/
theorem C8_single_segment_witness :
    min_seg_difference_tab ⟨[some 0], [none], [some 2]⟩ 0 = some 0 :=
  C8_single_segment ⟨[some 0], [none], [some 2]⟩ rfl

/-- C10: the score array depends only on the `h_li` and `dh_fit_dx` columns;
two granules agreeing on those but with arbitrary `x_atc` columns get
identical scores at every index, even though the interface requires `x_atc`
to be present. -/
theorem C10_x_atc_independent (g g2 : Granule) (i : ℕ)
    (hh : g.h_li = g2.h_li) (hdx : g.dh_fit_dx = g2.dh_fit_dx) :
    min_seg_difference_tab g i = min_seg_difference_tab g2 i := by
  have e1 : gH g = gH g2 := by funext j; simp only [gH, hh]
  have e2 : gDX g = gDX g2 := by funext j; simp only [gDX, hdx]
  have e3 : g.h_li.length = g2.h_li.length := by rw [hh]
  rw [min_seg_difference_tab, min_seg_difference_tab, e1, e2, e3]

/-- Witness for C10 on two granules with different `x_atc` columns. -/
theorem C10_x_atc_independent_witness :
    min_seg_difference_tab
      ⟨[some 0, some 20], [some 1, some 2], [some 0, some 0]⟩ 1 =
    min_seg_difference_tab
      ⟨[some 7, some 9], [some 1, some 2], [some 0, some 0]⟩ 1 :=
  C10_x_atc_independent
    ⟨[some 0, some 20], [some 1, some 2], [some 0, some 0]⟩
    ⟨[some 7, some 9], [some 1, some 2], [some 0, some 0]⟩ 1 rfl rfl

/-- `dget` misses keys not present in the list. -/
theorem dget_eq_none {α : Type} (l : List (String × α)) (k : String)
    (hk : k ∉ l.map Prod.fst) : dget l k = none := by
  induction l with
  | nil => rfl
  | cons p rest ih =>
    simp only [List.map_cons, List.mem_cons] at hk
    push_neg at hk
    rw [dget, ih hk.2, if_neg (fun he => hk.1 he.symm)]

/-- With no duplicate keys, `dget` finds exactly the stored pair. -/
theorem dget_eq_of_mem {α : Type} (l : List (String × α)) (k : String) (c : α)
    (hnd : (l.map Prod.fst).Nodup) (hmem : (k, c) ∈ l) : dget l k = some c := by
  induction l with
  | nil => simp at hmem
  | cons p rest ih =>
    simp only [List.map_cons, List.nodup_cons] at hnd
    rw [dget]
    rcases List.mem_cons.mp hmem with h | h
    · have hk : k ∉ rest.map Prod.fst := by
        rw [← h] at hnd
        exact hnd.1
      rw [dget_eq_none rest k hk, ← h, if_pos rfl]
    · rw [ih hnd.2 h]

/-- A successful `readGroup` returns one column per requested dataset, in
order, each being the indexed-and-fill-processed stored dataset. -/
theorem readGroup_ok (f : H5File) (beam : String) (key : Option String)
    (dss : List String) (index : Option (List ℕ))
    (cols : List (String × Column))
    (hok : readGroup f beam key dss index = .ok cols) :
    cols.map Prod.fst = dss ∧
    ∀ ds ∈ dss, ∃ d, f.datasets.lookup (ds_name beam key ds) = some d ∧
      (ds, readDataset index d) ∈ cols := by
  induction dss generalizing cols with
  | nil =>
    simp only [readGroup, Except.ok.injEq] at hok
    subst hok
    simp
  | cons ds rest ih =>
    simp only [readGroup] at hok
    cases hl : f.datasets.lookup (ds_name beam key ds) with
    | none => rw [hl] at hok; simp at hok
    | some d =>
      rw [hl] at hok
      cases hr : readGroup f beam key rest index with
      | error e => rw [hr] at hok; simp at hok
      | ok cols2 =>
        rw [hr] at hok
        simp only [Except.ok.injEq] at hok
        subst hok
        obtain ⟨hkeys, hmem⟩ := ih cols2 hr
        refine ⟨by simp [hkeys], ?_⟩
        intro ds2 hds2
        rcases List.mem_cons.mp hds2 with h | h
        · subst h
          exact ⟨d, hl, List.mem_cons_self _ _⟩
        · obtain ⟨d2, hd2, hmem2⟩ := hmem ds2 h
          exact ⟨d2, hd2, List.mem_cons_of_mem _ hmem2⟩

/-- A successful `readFields` returns the columns of all groups,
concatenated in order. -/
theorem readFields_ok (f : H5File) (beam : String)
    (fd : List (Option String × List String)) (index : Option (List ℕ))
    (cols : List (String × Column))
    (hok : readFields f beam fd index = .ok cols) :
    cols.map Prod.fst = (fd.map Prod.snd).flatten ∧
    ∀ key dss, (key, dss) ∈ fd → ∀ ds ∈ dss,
      ∃ d, f.datasets.lookup (ds_name beam key ds) = some d ∧
        (ds, readDataset index d) ∈ cols := by
  induction fd generalizing cols with
  | nil =>
    simp only [readFields, Except.ok.injEq] at hok
    subst hok
    simp
  | cons g rest ih =>
    obtain ⟨key, dss⟩ := g
    simp only [readFields] at hok
    cases hg : readGroup f beam key dss index with
    | error e => rw [hg] at hok; simp at hok
    | ok cols1 =>
      rw [hg] at hok
      cases hr : readFields f beam rest index with
      | error e => rw [hr] at hok; simp at hok
      | ok cols2 =>
        rw [hr] at hok
        simp only [Except.ok.injEq] at hok
        subst hok
        obtain ⟨hk1, hm1⟩ := readGroup_ok f beam key dss index cols1 hg
        obtain ⟨hk2, hm2⟩ := ih cols2 hr
        refine ⟨by simp [hk1, hk2], ?_⟩
        intro key2 dss2 hmem2 ds hds
        rcases List.mem_cons.mp hmem2 with h | h
        · cases h
          obtain ⟨d, hd, hmm⟩ := hm1 ds hds
          exact ⟨d, hd, List.mem_append_left _ hmm⟩
        · obtain ⟨d, hd, hmm⟩ := hm2 key2 dss2 h ds hds
          exact ⟨d, hd, List.mem_append_right _ hmm⟩

/-- Every `readGroup` failure is a `KeyError`. -/
theorem readGroup_error (f : H5File) (beam : String) (key : Option String)
    (dss : List String) (index : Option (List ℕ)) (e : PyError)
    (herr : readGroup f beam key dss index = .error e) :
    ∃ s, e = PyError.keyError s := by
  induction dss with
  | nil => simp [readGroup] at herr
  | cons ds rest ih =>
    simp only [readGroup] at herr
    cases hl : f.datasets.lookup (ds_name beam key ds) with
    | none =>
      rw [hl] at herr
      simp only [Except.error.injEq] at herr
      exact ⟨_, herr.symm⟩
    | some d =>
      rw [hl] at herr
      cases hr : readGroup f beam key rest index with
      | error e2 =>
        rw [hr] at herr
        simp only [Except.error.injEq] at herr
        subst herr
        exact ih hr
      | ok cols => rw [hr] at herr; simp at herr

/-- Every `readFields` failure is a `KeyError`. -/
theorem readFields_error (f : H5File) (beam : String)
    (fd : List (Option String × List String)) (index : Option (List ℕ))
    (e : PyError) (herr : readFields f beam fd index = .error e) :
    ∃ s, e = PyError.keyError s := by
  induction fd with
  | nil => simp [readFields] at herr
  | cons g rest ih =>
    obtain ⟨key, dss⟩ := g
    simp only [readFields] at herr
    cases hg : readGroup f beam key dss index with
    | error e2 =>
      rw [hg] at herr
      simp only [Except.error.injEq] at herr
      subst herr
      exact readGroup_error f beam key dss index e2 hg
    | ok cols1 =>
      rw [hg] at herr
      cases hr : readFields f beam rest index with
      | error e2 =>
        rw [hr] at herr
        simp only [Except.error.injEq] at herr
        subst herr
        exact ih hr
      | ok cols2 => rw [hr] at herr; simp at herr

/-- Inverting a successful `atl06_to_dict` with `epsg` unset: the columns of
the table are exactly what `readFields` produced. -/
theorem atl06_ok_cols (pr : ℚ → ℚ → ℚ × ℚ) (f : H5File) (beam : String)
    (fdo : Option (List (Option String × List String)))
    (index : Option (List ℕ)) (T : Table)
    (hT : atl06_to_dict pr f beam fdo index none = .ok T) :
    readFields f beam (fdo.getD default_field_dict) index = .ok T.cols := by
  simp only [atl06_to_dict] at hT
  cases hrf : readFields f beam (fdo.getD default_field_dict) index with
  | error e => rw [hrf] at hT; simp at hT
  | ok cols =>
    rw [hrf] at hT
    simp only [addXY] at hT
    cases hre : file_re_search f.filename with
    | none => rw [hre] at hT; simp at hT
    | some rc =>
      rw [hre] at hT
      simp only [Except.ok.injEq] at hT
      rw [← hT]

/-- C4, counterexample.  A requested dataset with no `_FillValue` attribute
and integer dtype is returned with its integer dtype: the cast to float
happens only inside the `if '_FillValue' in attrs` branch, so the claim that
every extracted field is cast to a floating-point representation fails. -/
theorem C4_counterexample :
    (atl06_to_dict proj0
      ⟨"ATL06_20181214_03330210_003_01.h5",
        [("gt2l/land_ice_segments/h_li", ⟨Dty.intTy, [1, 2], none⟩)]⟩
      "gt2l" (some [(none, ["h_li"])]) none none).map
        (fun T => (dget T.cols "h_li").map Column.dty) =
      .ok (some Dty.intTy) ∧
    Dty.intTy ≠ Dty.floatTy := by
  exact ⟨rfl, by decide⟩

/-- C4, amended.  Every requested field is returned as the stored dataset,
indexed and fill-processed: when the dataset carries a fill sentinel, the
entries equal to the sentinel become NaN and the dtype becomes float; a
dataset without a sentinel keeps its values (wrapped as finite) and its
original dtype, with no cast. -/
theorem C4_amended (pr : ℚ → ℚ → ℚ × ℚ) (f : H5File) (beam : String)
    (fd : List (Option String × List String)) (index : Option (List ℕ))
    (T : Table) (key : Option String) (dss : List String) (ds : String)
    (d : Dataset)
    (hT : atl06_to_dict pr f beam (some fd) index none = .ok T)
    (hnd : ((fd.map Prod.snd).flatten).Nodup)
    (hg : (key, dss) ∈ fd) (hds : ds ∈ dss)
    (hd : f.datasets.lookup (ds_name beam key ds) = some d) :
    dget T.cols ds = some (readDataset index d) ∧
    (readDataset index d).dty =
      (match d.fillValue with
        | some _ => Dty.floatTy
        | none => d.dty) ∧
    (readDataset index d).vals =
      (applyIndex index d.vals).map
        (fun v =>
          match d.fillValue with
          | some fv => if v = fv then none else some v
          | none => some v) := by
  have hrf := atl06_ok_cols pr f beam (some fd) index T hT
  rw [Option.getD_some] at hrf
  obtain ⟨hk, hm⟩ := readFields_ok f beam fd index T.cols hrf
  obtain ⟨d2, hd2, hmem⟩ := hm key dss hg ds hds
  rw [hd] at hd2
  injection hd2 with hd2
  subst hd2
  refine ⟨dget_eq_of_mem _ _ _ (by rw [hk]; exact hnd) hmem, ?_, ?_⟩ <;>
    cases hfv : d.fillValue <;>
    simp [readDataset, processDataset, hfv]

/-- Witness for C4_amended on a dataset carrying fill sentinel 99. -/
theorem C4_amended_witness :
    dget (Table.cols ⟨[("h_li", ⟨Dty.floatTy, [some 1, none]⟩)], 333, 2,
        "gt2l"⟩) "h_li" =
      some (readDataset none ⟨Dty.floatTy, [1, 99], some 99⟩) ∧
    (readDataset none ⟨Dty.floatTy, [1, 99], some 99⟩).dty = Dty.floatTy ∧
    (readDataset none ⟨Dty.floatTy, [1, 99], some 99⟩).vals =
      (applyIndex none ([1, 99] : List ℚ)).map
        (fun v => if v = (99 : ℚ) then none else some v) :=
  C4_amended proj0
    ⟨"ATL06_20181214_03330210_003_01.h5",
      [("gt2l/land_ice_segments/h_li", ⟨Dty.floatTy, [1, 99], some 99⟩)]⟩
    "gt2l" [(none, ["h_li"])] none
    ⟨[("h_li", ⟨Dty.floatTy, [some 1, none]⟩)], 333, 2, "gt2l"⟩
    none ["h_li"] "h_li" ⟨Dty.floatTy, [1, 99], some 99⟩
    rfl (by simp) (by simp) (by simp) rfl

/-- C5: if a requested dataset is absent from the source file, the
`atl06_to_dict` read fails with a `KeyError` (missing-field error), and the
notebook's batch loop, which catches `KeyError` per file, skips the file and
processes all remaining files unchanged: one unreadable (file, beam) pair
does not abort the others. -/
theorem C5_missing_field_skipped (pr : ℚ → ℚ → ℚ × ℚ) (beam : String)
    (fd : List (Option String × List String)) (index : Option (List ℕ))
    (epsg : Option ℕ) (f : H5File) (key : Option String) (dss : List String)
    (ds : String) (hg : (key, dss) ∈ fd) (hds : ds ∈ dss)
    (habs : f.datasets.lookup (ds_name beam key ds) = none)
    (pre post : List H5File) :
    isKeyError (atl06_to_dict pr f beam (some fd) index epsg) = true ∧
    D_dict pr beam (some fd) index epsg (pre ++ f :: post) =
      D_dict pr beam (some fd) index epsg (pre ++ post) := by
  have hfail : ∃ s, atl06_to_dict pr f beam (some fd) index epsg =
      .error (.keyError s) := by
    cases hrf : readFields f beam fd index with
    | ok cols =>
      obtain ⟨hk, hm⟩ := readFields_ok f beam fd index cols hrf
      obtain ⟨d, hd, _⟩ := hm key dss hg ds hds
      rw [habs] at hd
      exact Option.noConfusion hd
    | error e =>
      obtain ⟨s, hs⟩ := readFields_error f beam fd index e hrf
      subst hs
      refine ⟨s, ?_⟩
      simp only [atl06_to_dict, Option.getD_some]
      rw [hrf]
  obtain ⟨s, hs⟩ := hfail
  constructor
  · rw [hs]; rfl
  · induction pre with
    | nil =>
      simp only [List.nil_append, D_dict]
      rw [hs]
    | cons f2 rest ih =>
      simp only [List.cons_append, D_dict, List.append_eq]
      rw [ih]

/-- Witness for C5 on a file with no datasets followed by a readable file. -/
theorem C5_missing_field_skipped_witness :
    isKeyError (atl06_to_dict proj0
      ⟨"ATL06_20190101_00010203_003_01.h5", []⟩ "gt2l"
      (some [(none, ["h_li"])]) none none) = true ∧
    D_dict proj0 "gt2l" (some [(none, ["h_li"])]) none none
      ([] ++ ⟨"ATL06_20190101_00010203_003_01.h5", []⟩ ::
        [⟨"ATL06_20181214_03330210_003_01.h5",
          [("gt2l/land_ice_segments/h_li", ⟨Dty.floatTy, [1], none⟩)]⟩]) =
    D_dict proj0 "gt2l" (some [(none, ["h_li"])]) none none
      ([] ++ [⟨"ATL06_20181214_03330210_003_01.h5",
        [("gt2l/land_ice_segments/h_li", ⟨Dty.floatTy, [1], none⟩)]⟩]) :=
  C5_missing_field_skipped proj0 "gt2l" [(none, ["h_li"])] none none
    ⟨"ATL06_20190101_00010203_003_01.h5", []⟩ none ["h_li"] "h_li"
    (by simp) (by simp) rfl []
    [⟨"ATL06_20181214_03330210_003_01.h5",
      [("gt2l/land_ice_segments/h_li", ⟨Dty.floatTy, [1], none⟩)]⟩]

/-- C7: with `epsg` unset (and no indexing), reading a file whose requested
datasets contain no fill-flagged entry reproduces each requested field's raw
values exactly. -/
theorem C7_roundtrip (pr : ℚ → ℚ → ℚ × ℚ) (f : H5File) (beam : String)
    (fd : List (Option String × List String)) (T : Table)
    (key : Option String) (dss : List String) (ds : String) (d : Dataset)
    (hT : atl06_to_dict pr f beam (some fd) none none = .ok T)
    (hnd : ((fd.map Prod.snd).flatten).Nodup)
    (hg : (key, dss) ∈ fd) (hds : ds ∈ dss)
    (hd : f.datasets.lookup (ds_name beam key ds) = some d)
    (hnofill : ∀ fv, d.fillValue = some fv → fv ∉ d.vals) :
    (dget T.cols ds).map Column.vals = some (d.vals.map some) := by
  have hrf := atl06_ok_cols pr f beam (some fd) none T hT
  rw [Option.getD_some] at hrf
  obtain ⟨hk, hm⟩ := readFields_ok f beam fd none T.cols hrf
  obtain ⟨d2, hd2, hmem⟩ := hm key dss hg ds hds
  rw [hd] at hd2
  injection hd2 with hd2
  subst hd2
  have hget : dget T.cols ds = some (readDataset none d) :=
    dget_eq_of_mem _ _ _ (by rw [hk]; exact hnd) hmem
  rw [hget]
  have hvals : (readDataset none d).vals = d.vals.map some := by
    cases hfv : d.fillValue with
    | none => simp [readDataset, processDataset, applyIndex, hfv]
    | some fv =>
      have hnm := hnofill fv hfv
      simp only [readDataset, processDataset, applyIndex, hfv]
      refine List.map_congr_left ?_
      intro v hv
      have hne : v ≠ fv := fun he => hnm (he ▸ hv)
      exact if_neg hne
  simp [hvals]

/-- Witness for C7 on a two-entry dataset whose fill sentinel 99 occurs
nowhere in the data. -/
theorem C7_roundtrip_witness :
    (dget (Table.cols ⟨[("h_li", ⟨Dty.floatTy, [some 5, some 7]⟩)], 333, 2,
        "gt2l"⟩) "h_li").map Column.vals =
      some (([5, 7] : List ℚ).map some) :=
  C7_roundtrip proj0
    ⟨"ATL06_20181214_03330210_003_01.h5",
      [("gt2l/land_ice_segments/h_li", ⟨Dty.floatTy, [5, 7], some 99⟩)]⟩
    "gt2l" [(none, ["h_li"])]
    ⟨[("h_li", ⟨Dty.floatTy, [some 5, some 7]⟩)], 333, 2, "gt2l"⟩
    none ["h_li"] "h_li" ⟨Dty.floatTy, [5, 7], some 99⟩
    rfl (by simp) (by simp) (by simp) rfl
    (by
      intro fv hfv
      rw [Option.some.injEq] at hfv
      subst hfv
      norm_num)

/-- When the filename does not match the provenance pattern, no call of the
reader on that file can succeed: it raises some exception. -/
theorem atl06_error_of_noMatch (pr : ℚ → ℚ → ℚ × ℚ) (f : H5File)
    (beam : String) (fdo : Option (List (Option String × List String)))
    (index : Option (List ℕ)) (epsg : Option ℕ)
    (hre : file_re_search f.filename = none) :
    ∃ e, atl06_to_dict pr f beam fdo index epsg = .error e := by
  simp only [atl06_to_dict]
  cases hrf : readFields f beam (fdo.getD default_field_dict) index with
  | error e => exact ⟨e, rfl⟩
  | ok cols =>
    dsimp only
    cases hxy : addXY pr epsg cols with
    | error e => exact ⟨e, rfl⟩
    | ok cols2 =>
      dsimp only
      rw [hre]
      exact ⟨.typeError, rfl⟩

/-- C9: when the filename does not match the provenance pattern (and all
requested datasets are present, `epsg` unset), the read fails — `temp` is
`None` and `temp['rgt']` raises `TypeError` — and the notebook's
repeat-track batch loops, which catch `Exception` per file and continue,
skip this file and process the remaining files unchanged. -/
theorem C9_malformed_identifier (pr : ℚ → ℚ → ℚ × ℚ) (beam : String)
    (fd : List (Option String × List String)) (index : Option (List ℕ))
    (epsg : Option ℕ) (f : H5File) (cols : List (String × Column))
    (hok : readFields f beam fd index = .ok cols)
    (hre : file_re_search f.filename = none)
    (pre post : List H5File) :
    atl06_to_dict pr f beam (some fd) index none = .error .typeError ∧
    D_2lr pr (some fd) index epsg (pre ++ f :: post) =
      D_2lr pr (some fd) index epsg (pre ++ post) := by
  have hfail : atl06_to_dict pr f beam (some fd) index none =
      .error .typeError := by
    simp only [atl06_to_dict, Option.getD_some, hok, addXY, hre]
  refine ⟨hfail, ?_⟩
  obtain ⟨e, he⟩ :=
    atl06_error_of_noMatch pr f "/gt2l" (some fd) index epsg hre
  induction pre with
  | nil =>
    simp only [List.nil_append, D_2lr]
    rw [he]
  | cons f2 rest ih =>
    simp only [List.cons_append, D_2lr, List.append_eq]
    rw [ih]

/-- Witness for C9 on a readable dataset behind an unparseable filename,
followed by a file readable on both beams. -/
theorem C9_malformed_identifier_witness :
    atl06_to_dict proj0
      ⟨"bad.h5", [("/gt2l/land_ice_segments/h_li", ⟨Dty.floatTy, [1], none⟩)]⟩
      "/gt2l" (some [(none, ["h_li"])]) none none = .error .typeError ∧
    D_2lr proj0 (some [(none, ["h_li"])]) none none
      ([] ++ ⟨"bad.h5",
        [("/gt2l/land_ice_segments/h_li", ⟨Dty.floatTy, [1], none⟩)]⟩ ::
        [⟨"ATL06_20181214_03330210_003_01.h5",
          [("/gt2l/land_ice_segments/h_li", ⟨Dty.floatTy, [1], none⟩),
           ("/gt2r/land_ice_segments/h_li", ⟨Dty.floatTy, [2], none⟩)]⟩]) =
    D_2lr proj0 (some [(none, ["h_li"])]) none none
      ([] ++ [⟨"ATL06_20181214_03330210_003_01.h5",
        [("/gt2l/land_ice_segments/h_li", ⟨Dty.floatTy, [1], none⟩),
         ("/gt2r/land_ice_segments/h_li", ⟨Dty.floatTy, [2], none⟩)]⟩]) :=
  C9_malformed_identifier proj0 "/gt2l" [(none, ["h_li"])] none none
    ⟨"bad.h5", [("/gt2l/land_ice_segments/h_li", ⟨Dty.floatTy, [1], none⟩)]⟩
    [("h_li", readDataset none ⟨Dty.floatTy, [1], none⟩)]
    rfl rfl []
    [⟨"ATL06_20181214_03330210_003_01.h5",
      [("/gt2l/land_ice_segments/h_li", ⟨Dty.floatTy, [1], none⟩),
       ("/gt2r/land_ice_segments/h_li", ⟨Dty.floatTy, [2], none⟩)]⟩]
